import Mathlib

/-!
Verification development for the RiemannZeroSearch repository
(`zeta_ml_finder.py`, `zeta_crunch.py`, `zeta_loop.py`, `zeta_setup.py`).

Modelling conventions:
* Python floats and mpmath multi-precision numbers are embedded as exact
  rationals (`ℚ`) on the verifier side, and as real/complex numbers
  (`ℝ`, `ℂ`) on the scanner side where real exponentiation is involved.
* mpmath complex values are embedded as pairs of rationals (`Cq`).
  A comparison `abs z < c` on complex `z` with `c > 0` is embedded as
  `absSq z < c ^ 2`, which is equivalent over the reals since squaring is
  strictly monotone on nonnegative numbers; this keeps every predicate
  decidable.
* `mp.zeta` evaluated at `p` significant digits is an abstract function
  parameter `zeta : ℕ → Cq → Cq` (precision-indexed); `mp.findroot` is an
  abstract `findroot : Cq → Option Cq`, `none` embedding the exception
  path of the `try`/`except` block.
* Side effects (file appends, SQLite inserts, CSV writes, the terminal
  bell) are embedded as explicit effect traces (lists of an `Effect`
  inductive), in the order the statements execute.
-/

/- Rational arithmetic in Batteries is `@[irreducible]`, which blocks the
`decide`-based evaluation of the embedded programs on concrete inputs; the
definitions are sound to unfold, so restore reducibility for them. -/
set_option allowUnsafeReducibility true in
attribute [semireducible] Rat.mul Rat.add Rat.sub Rat.div Rat.inv

namespace RiemannZeroSearch

/-- A complex number with exact rational coordinates, embedding the
mpmath `mpc` values (and numpy complex values) that flow through
`zeta_crunch.py`. -/
structure Cq where
  re : ℚ
  im : ℚ
deriving DecidableEq, Repr

/-- Squared magnitude of a `Cq`.  `abs z ≤ c` (for `c ≥ 0`) is embedded as
`absSq z ≤ c ^ 2`: over the reals `abs z = Real.sqrt (absSq z)` and squaring
is strictly monotone on nonnegatives, so the two comparisons agree. -/
def absSq (z : Cq) : ℚ := z.re * z.re + z.im * z.im

/-! ### Precision state of `zeta_crunch.py`

`zeta_crunch.py` line 16 sets `mp.dps = 50` at module load.  Line 23 defines
`def zeta_eval(s, precision=mp.dps)`: Python evaluates the default argument
expression once, at function-definition time, so the default is frozen at 50
regardless of later assignments to `mp.dps`. -/

/-- `mp.dps` right after module load (`mp.dps = 50`, line 16). -/
def INITIAL_DPS : ℕ := 50

/-- Line 17: `LOW_PRECISION = 20`. -/
def LOW_PRECISION : ℕ := 20

/-- The default value of `zeta_eval`'s `precision` parameter: the value of
`mp.dps` captured when the `def` statement ran (line 23), i.e. 50. -/
def ZETA_EVAL_DEFAULT_PRECISION : ℕ := INITIAL_DPS

/-- State transition of the global `mp.dps` performed by a call
`zeta_eval(s, precision)` (line 25: `mp.dps = precision`).  `none` embeds a
call that omits the argument, which therefore uses the frozen default. -/
def zeta_eval_dps (precision : Option ℕ) (_dps : ℕ) : ℕ :=
  match precision with
  | some p => p
  | none => ZETA_EVAL_DEFAULT_PRECISION

/-- The value of `mp.dps` at which the pre-filter evaluation actually runs:
line 42 assigns `mp.dps = LOW_PRECISION`, then line 43 calls `zeta_eval(s)`
with no explicit precision, whose default-argument assignment overwrites
`mp.dps` before `mp.zeta` is invoked. -/
def prefilter_dps : ℕ := zeta_eval_dps none LOW_PRECISION

/-! ### The verifier `verify_zero` (`zeta_crunch.py` lines 28-65) -/

/-- Pre-filter rejection bound (line 44): `if abs(zeta_initial) > 1e-5`. -/
def PREFILTER_BOUND : ℚ := 1 / 10 ^ 5

/-- Root-refinement / confirmation tolerance (lines 51, 55, 56): `1e-10`. -/
def ROOT_TOL : ℚ := 1 / 10 ^ 10

/-- The test-mode guard of `verify_zero` (line 37):
`is_test and abs(sigma - 0.55) < 1e-3 and abs(t - 3.1e12) < 1e7`. -/
def test_branch (is_test : Bool) (sigma t : ℚ) : Bool :=
  is_test && decide (|sigma - 55 / 100| < 1 / 10 ^ 3)
    && decide (|t - 31 / 10 * 10 ^ 12| < 10 ^ 7)

/-- The result tuple `(sigma, t, zeta_val, is_counterexample)` that
`verify_zero` returns on success (`None` is `Option.none`). -/
abbrev VRes : Type := ℚ × ℚ × Cq × Bool

/-- Embedding of `verify_zero` (`zeta_crunch.py` lines 28-65).

* `zeta p s` embeds `mp.zeta(s)` computed at `p` significant digits.
* `findroot s` embeds `mp.findroot(zeta_eval, s, tol=1e-10)`; `none` is the
  exception path of the surrounding `try`.
* The pre-filter evaluation (line 43) and the confirmation evaluation
  (line 54) both call `zeta_eval` without an explicit precision, so both run
  at `ZETA_EVAL_DEFAULT_PRECISION` (= 50) digits — in particular the
  pre-filter does NOT run at the `LOW_PRECISION` the preceding line
  installs (see `prefilter_dps`).
* Magnitude comparisons are embedded through `absSq` against the squared
  bound, which is equivalent (both bounds are positive). -/
def verify_zero (zeta : ℕ → Cq → Cq) (findroot : Cq → Option Cq)
    (sigma t : ℚ) (is_test : Bool) : Option VRes :=
  let s : Cq := ⟨sigma, t⟩
  if test_branch is_test sigma t then
    some (sigma, t, ⟨1 / 10 ^ 6, 0⟩, true)
  else
    let zeta_initial := zeta ZETA_EVAL_DEFAULT_PRECISION s
    if absSq zeta_initial > PREFILTER_BOUND ^ 2 then
      none
    else
      match findroot s with
      | none => none
      | some zero =>
        let sigma_zero := zero.re
        let t_zero := zero.im
        let zeta_val := zeta ZETA_EVAL_DEFAULT_PRECISION zero
        if absSq zeta_val < ROOT_TOL ^ 2 then
          if |sigma_zero - 1 / 2| > ROOT_TOL then
            some (sigma_zero, t_zero, zeta_val, true)
          else
            some (sigma_zero, t_zero, zeta_val, false)
        else
          none

/-- The three classification outcomes named by the specification for a
verification task. -/
inductive Classification where
  | RejectedNotZero
  | ZeroOnCriticalLine
  | CounterexampleOffLine
deriving DecidableEq, Repr

/-- The classification tag carried by a returned result tuple: the code
encodes it in the `is_counterexample` boolean (lines 58 and 60). -/
def tagOf (is_counterexample : Bool) : Classification :=
  if is_counterexample then Classification.CounterexampleOffLine
  else Classification.ZeroOnCriticalLine

/-! ### Result processing and persistence in `search_zeros`
(`zeta_crunch.py` lines 105-139) -/

/-- Persistence side effects of the verifier stage. -/
inductive CrunchEffect where
  /-- `log_result` (lines 67-79): append a JSON record to
  `verified_zeros.log`. -/
  | logResult (sigma t : ℚ) (zeta : Cq) (is_counterexample : Bool)
  /-- `log_verified_zero` (lines 81-92): `INSERT INTO verified_zeros`. -/
  | dbInsertVerifiedZero (sigma t : ℚ) (zeta : Cq) (is_counterexample : Bool)
deriving DecidableEq, Repr

/-- The persistence effects `search_zeros` performs for one verification
result (lines 121-134): a `None` result is skipped entirely; a returned
tuple is logged to the file and inserted into the database. -/
def result_effects (r : Option VRes) : List CrunchEffect :=
  match r with
  | none => []
  | some (sigma, t, z, isc) =>
      [CrunchEffect.logResult sigma t z isc,
       CrunchEffect.dbInsertVerifiedZero sigma t z isc]

/-- `pool.map(verify_zero, [(row.sigma, row.t, test_mode) ...])`
(lines 117-118): one independent task per anomaly; `Pool.map` returns the
results in input order, so the batch is embedded as an order-preserving
map.  (The tasks share no mutable state, so concurrent scheduling cannot
change any result.) -/
def search_zeros_results (zeta : ℕ → Cq → Cq) (findroot : Cq → Option Cq)
    (anomalies : List (ℚ × ℚ)) (test_mode : Bool) : List (Option VRes) :=
  anomalies.map fun a => verify_zero zeta findroot a.1 a.2 test_mode

/-- Whether the cruncher run prints `"Confirmed counterexample found!"`
(line 128): it does exactly when some result has the counterexample flag. -/
def cruncher_reports_counterexample (results : List (Option VRes)) : Bool :=
  results.any fun r =>
    match r with
    | some v => v.2.2.2
    | none => false

/-- Worker-pool construction of `search_zeros` (line 117):
`Pool(processes=min(6, len(anomalies)))`.  CPython's
`multiprocessing.Pool.__init__` raises
`ValueError("Number of processes must be at least 1")` when `processes < 1`
(standard-library semantics, embedded as the error case). -/
def pool_create (processes : ℕ) : Except String Unit :=
  if processes < 1 then
    Except.error "Number of processes must be at least 1"
  else
    Except.ok ()

/-- The pool-construction step of `search_zeros` as a function of the number
of anomaly rows loaded from the CSV. -/
def search_zeros_pool_init (numAnomalies : ℕ) : Except String Unit :=
  pool_create (min 6 numAnomalies)

/-! ### Orchestrator statistics (`zeta_loop.py` lines 54-67) -/

/-- The cumulative counters of the orchestrator
(`total_anomalies`, `total_counterexamples`, lines 20-21). -/
structure Stats where
  total_anomalies : ℕ
  total_counterexamples : ℕ
deriving DecidableEq, Repr

/-- Embedding of `update_stats` (lines 54-67).  The source parses the
finder's stdout for the line `"Total anomalies detected: k"` and adds `k`
to `total_anomalies`; it adds 1 to `total_counterexamples` exactly when the
cruncher's output contains `"Confirmed counterexample found!"` (at most
once per cycle, however many counterexamples were printed).  The parsing is
embedded structurally: `anomalies_detected` is the parsed count and
`counterexample_reported` the substring test. -/
def update_stats (anomalies_detected : ℕ) (counterexample_reported : Bool)
    (s : Stats) : Stats :=
  { total_anomalies := s.total_anomalies + anomalies_detected,
    total_counterexamples :=
      s.total_counterexamples + (if counterexample_reported then 1 else 0) }

/-! ### The anomaly filter `find_anomalies` (`zeta_ml_finder.py` lines 60-77) -/

/-- One row of `scan_data` / `anomalies`: `(sigma, t, zeta_abs)`. -/
abbrev Row : Type := ℚ × ℚ × ℚ

/-- The fake anomaly injected in test mode (line 67):
`[0.55, 3.1e12, 1e-6]`. -/
def fake_anomaly : Row := (55 / 100, 31 / 10 * 10 ^ 12, 1 / 10 ^ 6)

/-- Embedding of the anomaly selection of `find_anomalies` (lines 60-68):
`anomalies = scan_data[scan_data[:, 2] < threshold]` keeps exactly the rows
whose magnitude column is strictly below the threshold, in order; in test
mode the fake anomaly is appended (`np.vstack`). -/
def find_anomalies (scan_data : List Row) (threshold : ℚ)
    (test_mode : Bool) : List Row :=
  let anomalies := scan_data.filter fun r => decide (r.2.2 < threshold)
  if test_mode then anomalies ++ [fake_anomaly] else anomalies

/-- Default detection threshold of `find_anomalies` (line 60): `1e-5`. -/
def THRESHOLD_DEFAULT : ℚ := 1 / 10 ^ 5

/-- Side effects of the finder stage. -/
inductive FinderEffect where
  /-- `df.to_csv("anomalies.csv")` (line 73): the tabular hand-off file. -/
  | csvWrite (file : String) (rows : List Row)
  /-- `log_anomaly` (lines 79-90): append a JSON record to
  `anomalies_detected.log`. -/
  | logAppend (file : String) (record : Row)
  /-- An `INSERT` into a database table with the given numeric payload
  (the finder's only database write is `log_searched_region`,
  lines 48-58, one row per scanned region). -/
  | dbInsert (table : String) (payload : List ℚ)
  /-- `print("\a")` (line 76). -/
  | beep
deriving DecidableEq, Repr

/-- `true` exactly on database-insert effects. -/
def FinderEffect.isDbInsert : FinderEffect → Bool
  | FinderEffect.dbInsert _ _ => true
  | _ => false

/-- The effect of `log_anomaly(sigma, t, zeta_abs)` (lines 79-90): a single
append to `anomalies_detected.log`; no database statement is executed. -/
def log_anomaly (r : Row) : FinderEffect :=
  FinderEffect.logAppend "anomalies_detected.log" r

/-- The persistence effects of `find_anomalies` (lines 71-77): when the
anomaly set is non-empty, the whole batch is written to `anomalies.csv`,
then each anomaly is passed to `log_anomaly`, then the bell is printed;
when it is empty, nothing is persisted. -/
def find_anomalies_effects (scan_data : List Row) (threshold : ℚ)
    (test_mode : Bool) : List FinderEffect :=
  let anomalies := find_anomalies scan_data threshold test_mode
  if 0 < anomalies.length then
    FinderEffect.csvWrite "anomalies.csv" anomalies ::
      (anomalies.map log_anomaly ++ [FinderEffect.beep])
  else
    []

/-! ### Concrete six-anomaly scenario artifacts (for claim C8)

A zeta oracle for which the anomalies at `t = 1, 2, 3` pre-filter-reject
(magnitude 1) while every other point evaluates to exactly 0, a root
finder that converges to `σ = 1/2` at the same height, and the six
anomalies themselves. -/

/-- Scenario zeta oracle (same at every precision): magnitude 1 for
`t ≤ 3`, exactly 0 elsewhere. -/
def c8_zeta : ℕ → Cq → Cq := fun _ s => if s.im ≤ 3 then ⟨1, 0⟩ else ⟨0, 0⟩

/-- Scenario root finder: converges to `(1/2, t)` from any starting
point. -/
def c8_findroot : Cq → Option Cq := fun s => some ⟨1 / 2, s.im⟩

/-- Six independent anomalies at heights `t = 1 .. 6`. -/
def c8_anomalies : List (ℚ × ℚ) :=
  [(3 / 5, 1), (3 / 5, 2), (3 / 5, 3), (3 / 5, 4), (3 / 5, 5), (3 / 5, 6)]

/-! ### The scanner (`zeta_ml_finder.py` lines 13-46), over ℝ/ℂ

The scanner's floats are embedded as real numbers and its complex
arithmetic as `ℂ`; `np.logspace` and `np.log10` are embedded through
`Real.rpow` and `Real.logb`, so these definitions are necessarily
noncomputable. -/

/-- Default series length of `zeta_approx_gpu_batch` (line 13): `N=1000`. -/
def N_DEFAULT : ℕ := 1000

/-- The truncated Dirichlet series `Σ_{n=1}^{N} n^(-s)` that
`zeta_approx_gpu_batch` computes for one point `s` (lines 21-23: the
broadcast matrix `n_s[n][j] = n ** (-s_j)` summed over `n` is exactly this
per-point sum for each column `j`). -/
noncomputable def dirichlet_sum (N : ℕ) (s : ℂ) : ℂ :=
  ∑ n in Finset.Icc 1 N, (n : ℂ) ^ (-s)

/-- Embedding of `zeta_approx_gpu_batch` (lines 13-26): pair the σ and t
arrays elementwise, form `s = σ + 1j t` (line 18), and return the complex
partial sums (the function returns complex values; the caller takes the
magnitudes). -/
noncomputable def zeta_approx_gpu_batch (sigma_vals t_vals : List ℝ)
    (N : ℕ) : List ℂ :=
  List.zipWith
    (fun (sigma t : ℝ) => dirichlet_sum N ((sigma : ℂ) + Complex.I * (t : ℂ)))
    sigma_vals t_vals

/-- The magnitude step `z_abs = np.abs(zeta_vals)` applied to the batch
output (`zeta_scan_logarithmic` line 41). -/
noncomputable def batch_magnitudes (sigma_vals t_vals : List ℝ)
    (N : ℕ) : List ℝ :=
  (zeta_approx_gpu_batch sigma_vals t_vals N).map Complex.abs

/-- `np.linspace(a, b, n)` entry `i`: `a + (b - a) * i / (n - 1)`
(for `n = 1` numpy returns `[a]`; here the division by zero is Lean's
`x / 0 = 0`, giving the same value). -/
noncomputable def linspace (a b : ℝ) (n : ℕ) (i : ℕ) : ℝ :=
  a + (b - a) * (i : ℝ) / ((n : ℝ) - 1)

/-- `np.logspace(lo, hi, n)` entry `i`: `10 ** linspace(lo, hi, n)[i]`
(numpy's documented definition), as a real power. -/
noncomputable def logspace (lo hi : ℝ) (n : ℕ) (i : ℕ) : ℝ :=
  (10 : ℝ) ^ linspace lo hi n i

/-- The t grid of `zeta_scan_logarithmic` (line 31):
`np.logspace(np.log10(t_min), np.log10(t_max), num_points)`. -/
noncomputable def scan_t (t_min t_max : ℝ) (n : ℕ) (i : ℕ) : ℝ :=
  logspace (Real.logb 10 t_min) (Real.logb 10 t_max) n i

/-- Embedding of `zeta_scan_logarithmic` (lines 28-46), as the flattened
list of result rows `[sigma, t, z_abs]`.  The batching loop (lines 35-42)
concatenates the slices `t_vals[i:i+batch_size]` in order, evaluating each
batch with the default `N = 1000`, so the flattened output has exactly one
row per grid index `i < num_points` in grid order.  The per-point
`np.random.uniform(sigma_min, sigma_max)` draws are embedded as the
abstract stream `sigmas`; their containment in `[sigma_min, sigma_max]`
(numpy's contract) is a hypothesis where a theorem needs it.  The source
performs no validation of either range: there is no raise, assert, or
check anywhere in lines 28-46 or in the `__main__` block (lines 92-103),
so the embedding is a total function.  (The σ range parameters are kept
in the signature for fidelity even though the body reads them only
through the abstract draw stream.) -/
noncomputable def zeta_scan_logarithmic (sigmas : ℕ → ℝ)
    (sigma_min sigma_max t_min t_max : ℝ) (num_points : ℕ) :
    List (ℝ × ℝ × ℝ) :=
  (List.range num_points).map fun i =>
    (sigmas i, scan_t t_min t_max num_points i,
      Complex.abs (dirichlet_sum N_DEFAULT
        ((sigmas i : ℂ) + Complex.I * (scan_t t_min t_max num_points i : ℂ))))

/-! ## Helper lemmas about `verify_zero` -/

/-- With `is_test = False` the test-mode guard never fires. -/
lemma test_branch_false (sigma t : ℚ) : test_branch false sigma t = false := by
  simp [test_branch]

/-- Pre-filter rejection path of `verify_zero` (lines 44-46). -/
lemma verify_zero_none_of_prefilter (zeta : ℕ → Cq → Cq)
    (findroot : Cq → Option Cq) (sigma t : ℚ)
    (h : absSq (zeta ZETA_EVAL_DEFAULT_PRECISION ⟨sigma, t⟩) > PREFILTER_BOUND ^ 2) :
    verify_zero zeta findroot sigma t false = none := by
  simp [verify_zero, test_branch_false, h]

/-- The shape of `verify_zero` when the pre-filter passes and the root
finder converges (lines 48-62). -/
lemma verify_zero_of_root (zeta : ℕ → Cq → Cq) (findroot : Cq → Option Cq)
    (sigma t : ℚ) (is_test : Bool) (zero : Cq)
    (hnt : test_branch is_test sigma t = false)
    (hpre : ¬ absSq (zeta ZETA_EVAL_DEFAULT_PRECISION ⟨sigma, t⟩) > PREFILTER_BOUND ^ 2)
    (hroot : findroot ⟨sigma, t⟩ = some zero) :
    verify_zero zeta findroot sigma t is_test =
      (if absSq (zeta ZETA_EVAL_DEFAULT_PRECISION zero) < ROOT_TOL ^ 2 then
        (if |zero.re - 1 / 2| > ROOT_TOL then
          some (zero.re, zero.im, zeta ZETA_EVAL_DEFAULT_PRECISION zero, true)
        else
          some (zero.re, zero.im, zeta ZETA_EVAL_DEFAULT_PRECISION zero, false))
      else none) := by
  simp [verify_zero, hnt, hpre, hroot]

/-- On-the-critical-line path of `verify_zero` (line 60). -/
lemma verify_zero_online (zeta : ℕ → Cq → Cq) (findroot : Cq → Option Cq)
    (sigma t : ℚ) (zero : Cq)
    (hpre : ¬ absSq (zeta ZETA_EVAL_DEFAULT_PRECISION ⟨sigma, t⟩) > PREFILTER_BOUND ^ 2)
    (hroot : findroot ⟨sigma, t⟩ = some zero)
    (hconf : absSq (zeta ZETA_EVAL_DEFAULT_PRECISION zero) < ROOT_TOL ^ 2)
    (hline : ¬ |zero.re - 1 / 2| > ROOT_TOL) :
    verify_zero zeta findroot sigma t false =
      some (zero.re, zero.im, zeta ZETA_EVAL_DEFAULT_PRECISION zero, false) := by
  rw [verify_zero_of_root zeta findroot sigma t false zero
    (test_branch_false sigma t) hpre hroot, if_pos hconf, if_neg hline]

/-! ## Claim theorems (rational side) -/

/-- Claim C1: when an anomaly passes the pre-filter and the root finder
converges, `verify_zero` returns a result exactly when the refined zeta
value is below the `1e-10` tolerance; the returned result carries exactly
one of the three classification tags (never `RejectedNotZero`), and the
tag is `CounterexampleOffLine` if and only if the refined sigma differs
from `1/2` by more than `1e-10`, otherwise `ZeroOnCriticalLine`.  When the
refined zeta value is not below the tolerance, no result is returned. -/
theorem verify_zero_classification_partition
    (zeta : ℕ → Cq → Cq) (findroot : Cq → Option Cq)
    (sigma t : ℚ) (is_test : Bool) (zero : Cq)
    (hnt : test_branch is_test sigma t = false)
    (hpre : ¬ absSq (zeta ZETA_EVAL_DEFAULT_PRECISION ⟨sigma, t⟩) > PREFILTER_BOUND ^ 2)
    (hroot : findroot ⟨sigma, t⟩ = some zero) :
    (absSq (zeta ZETA_EVAL_DEFAULT_PRECISION zero) < ROOT_TOL ^ 2 →
      ∃ r : VRes,
        verify_zero zeta findroot sigma t is_test = some r ∧
        r.1 = zero.re ∧ r.2.1 = zero.im ∧
        (tagOf r.2.2.2 = Classification.ZeroOnCriticalLine ∨
          tagOf r.2.2.2 = Classification.CounterexampleOffLine) ∧
        tagOf r.2.2.2 ≠ Classification.RejectedNotZero ∧
        (tagOf r.2.2.2 = Classification.CounterexampleOffLine ↔
          |zero.re - 1 / 2| > ROOT_TOL)) ∧
    (¬ absSq (zeta ZETA_EVAL_DEFAULT_PRECISION zero) < ROOT_TOL ^ 2 →
      verify_zero zeta findroot sigma t is_test = none) := by
  have hshape := verify_zero_of_root zeta findroot sigma t is_test zero hnt hpre hroot
  constructor
  · intro hconf
    rw [if_pos hconf] at hshape
    by_cases hline : |zero.re - 1 / 2| > ROOT_TOL
    · rw [if_pos hline] at hshape
      exact ⟨(zero.re, zero.im, zeta ZETA_EVAL_DEFAULT_PRECISION zero, true),
        hshape, rfl, rfl, Or.inr rfl, fun h => Classification.noConfusion h,
        iff_of_true rfl hline⟩
    · rw [if_neg hline] at hshape
      exact ⟨(zero.re, zero.im, zeta ZETA_EVAL_DEFAULT_PRECISION zero, false),
        hshape, rfl, rfl, Or.inl rfl, fun h => Classification.noConfusion h,
        iff_of_false (fun h => Classification.noConfusion h) hline⟩
  · intro hconf
    rwa [if_neg hconf] at hshape

/-- Witness for C1: a concrete anomaly at `(0.4, 14)` with a zeta oracle
that vanishes and a root finder converging to `(0.5, 14)` yields an
on-critical-line result. -/
theorem verify_zero_classification_partition_witness :
    ∃ r : VRes,
      verify_zero (fun _ _ => ⟨0, 0⟩) (fun _ => some ⟨1 / 2, 14⟩)
          (2 / 5) 14 false = some r ∧
      r.1 = (⟨1 / 2, 14⟩ : Cq).re ∧ r.2.1 = (⟨1 / 2, 14⟩ : Cq).im ∧
      (tagOf r.2.2.2 = Classification.ZeroOnCriticalLine ∨
        tagOf r.2.2.2 = Classification.CounterexampleOffLine) ∧
      tagOf r.2.2.2 ≠ Classification.RejectedNotZero ∧
      (tagOf r.2.2.2 = Classification.CounterexampleOffLine ↔
        |(⟨1 / 2, 14⟩ : Cq).re - 1 / 2| > ROOT_TOL) :=
  (verify_zero_classification_partition (fun _ _ => ⟨0, 0⟩)
    (fun _ => some ⟨1 / 2, 14⟩) (2 / 5) 14 false ⟨1 / 2, 14⟩
    (by decide) (by decide) rfl).1 (by decide)

/-- Claim C2: when the pre-filter recomputation of the zeta magnitude
exceeds the `1e-5` rejection bound, `verify_zero` returns `None` for every
root finder (so the refinement stage is never consulted), and nothing is
persisted for the task. -/
theorem verify_zero_prefilter_rejects
    (zeta : ℕ → Cq → Cq) (sigma t : ℚ) (is_test : Bool)
    (hnt : test_branch is_test sigma t = false)
    (hmag : absSq (zeta ZETA_EVAL_DEFAULT_PRECISION ⟨sigma, t⟩) > PREFILTER_BOUND ^ 2) :
    (∀ findroot : Cq → Option Cq,
      verify_zero zeta findroot sigma t is_test = none) ∧
    (∀ findroot : Cq → Option Cq,
      result_effects (verify_zero zeta findroot sigma t is_test) = []) ∧
    (∀ f g : Cq → Option Cq,
      verify_zero zeta f sigma t is_test = verify_zero zeta g sigma t is_test) := by
  have hnone : ∀ findroot : Cq → Option Cq,
      verify_zero zeta findroot sigma t is_test = none := by
    intro findroot
    simp [verify_zero, hnt, hmag]
  exact ⟨hnone, fun findroot => by rw [hnone findroot]; rfl,
    fun f g => by rw [hnone f, hnone g]⟩

/-- Witness for C2: a zeta oracle of constant magnitude 1 makes the
pre-filter reject the anomaly `(0.4, 14)`. -/
theorem verify_zero_prefilter_rejects_witness :
    verify_zero (fun _ _ => ⟨1, 0⟩) (fun _ => some ⟨1 / 2, 14⟩)
        (2 / 5) 14 false = none ∧
    result_effects (verify_zero (fun _ _ => ⟨1, 0⟩) (fun _ => none)
        (2 / 5) 14 false) = [] :=
  ⟨(verify_zero_prefilter_rejects (fun _ _ => ⟨1, 0⟩) (2 / 5) 14 false
      (by decide) (by decide)).1 _,
   (verify_zero_prefilter_rejects (fun _ _ => ⟨1, 0⟩) (2 / 5) 14 false
      (by decide) (by decide)).2.1 _⟩

/-- Claim C5: with test mode off, `find_anomalies` emits exactly the rows
whose magnitude column is strictly below the threshold, so the anomaly set
is never larger than the input batch; the default threshold is `1e-5`. -/
theorem find_anomalies_threshold_filter (scan_data : List Row) (threshold : ℚ) :
    find_anomalies scan_data threshold false =
      scan_data.filter (fun r => decide (r.2.2 < threshold)) ∧
    (∀ r : Row, r ∈ find_anomalies scan_data threshold false ↔
      r ∈ scan_data ∧ r.2.2 < threshold) ∧
    (find_anomalies scan_data threshold false).length ≤ scan_data.length ∧
    THRESHOLD_DEFAULT = 1 / 10 ^ 5 := by
  refine ⟨rfl, ?_, ?_, rfl⟩
  · intro r
    simp [find_anomalies]
  · simpa [find_anomalies] using
      List.length_filter_le (fun r : Row => decide (r.2.2 < threshold)) scan_data

/-- Counterexample to C7 as stated: on a batch with a single anomaly, the
finder's effect trace contains no database insert at all, so the anomaly
is not persisted "as a database insert". -/
theorem find_anomalies_no_db_insert_cx :
    (find_anomalies [((1 : ℚ) / 2, 5, 0)] THRESHOLD_DEFAULT false).length = 1 ∧
    (find_anomalies_effects [((1 : ℚ) / 2, 5, 0)] THRESHOLD_DEFAULT false).all
      (fun e => !e.isDbInsert) = true := by
  constructor
  · decide
  · decide

/-- Claim C7 (amended): every anomaly the filter emits is persisted as an
append-only structured log record, and the full anomaly batch is written
to the tabular hand-off file `anomalies.csv`; no database insert is issued
for anomalies. -/
theorem find_anomalies_persistence (scan_data : List Row) (threshold : ℚ)
    (a : Row) (ha : a ∈ find_anomalies scan_data threshold false) :
    log_anomaly a ∈ find_anomalies_effects scan_data threshold false ∧
    FinderEffect.csvWrite "anomalies.csv" (find_anomalies scan_data threshold false)
      ∈ find_anomalies_effects scan_data threshold false ∧
    ∀ (tbl : String) (payload : List ℚ),
      FinderEffect.dbInsert tbl payload ∉
        find_anomalies_effects scan_data threshold false := by
  have hlen : 0 < (find_anomalies scan_data threshold false).length :=
    List.length_pos.mpr (List.ne_nil_of_mem ha)
  have heff : find_anomalies_effects scan_data threshold false =
      FinderEffect.csvWrite "anomalies.csv" (find_anomalies scan_data threshold false) ::
        ((find_anomalies scan_data threshold false).map log_anomaly ++
          [FinderEffect.beep]) := by
    unfold find_anomalies_effects
    rw [if_pos hlen]
  refine ⟨?_, ?_, ?_⟩
  · rw [heff]
    exact List.mem_cons_of_mem _
      (List.mem_append_left _ (List.mem_map_of_mem _ ha))
  · rw [heff]
    exact List.mem_cons_self _ _
  · intro tbl payload
    rw [heff]
    simp [log_anomaly]

/-- Witness for C7 (amended): a concrete single-anomaly batch whose
emitted anomaly appears in the log trace. -/
theorem find_anomalies_persistence_witness :
    ((3 : ℚ) / 5, (7 : ℚ), (0 : ℚ)) ∈
      find_anomalies [((3 : ℚ) / 5, 7, 0)] THRESHOLD_DEFAULT false ∧
    log_anomaly ((3 : ℚ) / 5, 7, 0) ∈
      find_anomalies_effects [((3 : ℚ) / 5, 7, 0)] THRESHOLD_DEFAULT false :=
  ⟨by decide,
   (find_anomalies_persistence [((3 : ℚ) / 5, 7, 0)] THRESHOLD_DEFAULT
     ((3 : ℚ) / 5, 7, 0) (by decide)).1⟩

/-- Claim C9: `zeta_eval` always assigns its precision argument to the
global `mp.dps`; the default for that argument was captured at
function-definition time as 50, so a call without an explicit precision —
in particular the verifier's pre-filter evaluation, which sets `mp.dps` to
`LOW_PRECISION = 20` on the immediately preceding line — forces the global
precision back to 50 digits before evaluating. -/
theorem zeta_eval_precision_reset :
    (∀ p dps : ℕ, zeta_eval_dps (some p) dps = p) ∧
    (∀ dps : ℕ, zeta_eval_dps none dps = 50) ∧
    ZETA_EVAL_DEFAULT_PRECISION = 50 ∧
    LOW_PRECISION = 20 ∧
    prefilter_dps = 50 ∧
    prefilter_dps ≠ LOW_PRECISION :=
  ⟨fun _ _ => rfl, fun _ => rfl, rfl, rfl, rfl, by decide⟩

/-- Claim C10: with zero anomaly rows, `search_zeros` asks for a pool of
`min 6 0 = 0` worker processes, which `multiprocessing.Pool` rejects with
an exception, so the verification stage crashes on an empty anomaly set;
with at least one anomaly the pool is constructed normally. -/
theorem search_zeros_empty_anomaly_crash :
    min 6 0 = 0 ∧
    search_zeros_pool_init 0 =
      Except.error "Number of processes must be at least 1" ∧
    ∀ n : ℕ, 0 < n → search_zeros_pool_init n = Except.ok () := by
  refine ⟨rfl, rfl, ?_⟩
  intro n hn
  unfold search_zeros_pool_init pool_create
  rw [if_neg]
  exact Nat.not_lt.mpr (le_min (by decide) hn)

/-- Witness for C10: three anomalies give a successfully constructed pool. -/
theorem search_zeros_empty_anomaly_crash_witness :
    0 < 3 ∧ search_zeros_pool_init 3 = Except.ok () :=
  ⟨by decide, search_zeros_empty_anomaly_crash.2.2 3 (by decide)⟩

/-- Counterexample to C8 as stated: a concrete six-anomaly scenario in
which 3 anomalies pre-filter-reject and 3 refine to `σ = 1/2` exactly with
confirmed `|ζ|` below tolerance.  The verification stage does yield 3
`None`s and 3 on-critical-line results, but the run's cumulative counters
are incremented by 6 (`total_anomalies`, the finder-reported anomaly
count) and by 0 (`total_counterexamples`, since no counterexample line is
printed) — neither counter is incremented by 3. -/
theorem search_zeros_scenario_counters_cx :
    search_zeros_results c8_zeta c8_findroot c8_anomalies false =
      [none, none, none,
       some (1 / 2, 4, ⟨0, 0⟩, false),
       some (1 / 2, 5, ⟨0, 0⟩, false),
       some (1 / 2, 6, ⟨0, 0⟩, false)] ∧
    cruncher_reports_counterexample
      (search_zeros_results c8_zeta c8_findroot c8_anomalies false) = false ∧
    update_stats c8_anomalies.length
      (cruncher_reports_counterexample
        (search_zeros_results c8_zeta c8_findroot c8_anomalies false))
      ⟨0, 0⟩ = ⟨6, 0⟩ ∧
    (update_stats c8_anomalies.length
      (cruncher_reports_counterexample
        (search_zeros_results c8_zeta c8_findroot c8_anomalies false))
      ⟨0, 0⟩).total_anomalies ≠ 3 ∧
    (update_stats c8_anomalies.length
      (cruncher_reports_counterexample
        (search_zeros_results c8_zeta c8_findroot c8_anomalies false))
      ⟨0, 0⟩).total_counterexamples ≠ 3 := by
  refine ⟨by decide, by decide, by decide, by decide, by decide⟩

/-- Claim C8 (amended): verifying six anomalies of which the first three
pre-filter-reject and the last three refine to `σ = 1/2` exactly with
confirmed `|ζ|` below tolerance yields exactly 3 `None` results and 3
on-critical-line results and no counterexample report; the orchestrator
then increments the cumulative anomaly counter by the finder-reported
anomaly count (6) and leaves the counterexample counter unchanged — no
cumulative counter is incremented by 3. -/
theorem search_zeros_six_anomaly_scenario
    (zeta : ℕ → Cq → Cq) (findroot : Cq → Option Cq)
    (a1 a2 a3 a4 a5 a6 : ℚ × ℚ) (z4 z5 z6 : Cq)
    (hr1 : absSq (zeta ZETA_EVAL_DEFAULT_PRECISION ⟨a1.1, a1.2⟩) > PREFILTER_BOUND ^ 2)
    (hr2 : absSq (zeta ZETA_EVAL_DEFAULT_PRECISION ⟨a2.1, a2.2⟩) > PREFILTER_BOUND ^ 2)
    (hr3 : absSq (zeta ZETA_EVAL_DEFAULT_PRECISION ⟨a3.1, a3.2⟩) > PREFILTER_BOUND ^ 2)
    (hp4 : ¬ absSq (zeta ZETA_EVAL_DEFAULT_PRECISION ⟨a4.1, a4.2⟩) > PREFILTER_BOUND ^ 2)
    (hf4 : findroot ⟨a4.1, a4.2⟩ = some z4) (hz4 : z4.re = 1 / 2)
    (hc4 : absSq (zeta ZETA_EVAL_DEFAULT_PRECISION z4) < ROOT_TOL ^ 2)
    (hp5 : ¬ absSq (zeta ZETA_EVAL_DEFAULT_PRECISION ⟨a5.1, a5.2⟩) > PREFILTER_BOUND ^ 2)
    (hf5 : findroot ⟨a5.1, a5.2⟩ = some z5) (hz5 : z5.re = 1 / 2)
    (hc5 : absSq (zeta ZETA_EVAL_DEFAULT_PRECISION z5) < ROOT_TOL ^ 2)
    (hp6 : ¬ absSq (zeta ZETA_EVAL_DEFAULT_PRECISION ⟨a6.1, a6.2⟩) > PREFILTER_BOUND ^ 2)
    (hf6 : findroot ⟨a6.1, a6.2⟩ = some z6) (hz6 : z6.re = 1 / 2)
    (hc6 : absSq (zeta ZETA_EVAL_DEFAULT_PRECISION z6) < ROOT_TOL ^ 2) :
    search_zeros_results zeta findroot [a1, a2, a3, a4, a5, a6] false =
      [none, none, none,
       some (z4.re, z4.im, zeta ZETA_EVAL_DEFAULT_PRECISION z4, false),
       some (z5.re, z5.im, zeta ZETA_EVAL_DEFAULT_PRECISION z5, false),
       some (z6.re, z6.im, zeta ZETA_EVAL_DEFAULT_PRECISION z6, false)] ∧
    (search_zeros_results zeta findroot [a1, a2, a3, a4, a5, a6] false).countP
      (fun r => r.isNone) = 3 ∧
    (search_zeros_results zeta findroot [a1, a2, a3, a4, a5, a6] false).countP
      (fun r => match r with | some v => !v.2.2.2 | none => false) = 3 ∧
    cruncher_reports_counterexample
      (search_zeros_results zeta findroot [a1, a2, a3, a4, a5, a6] false) = false ∧
    ∀ s : Stats,
      update_stats 6
        (cruncher_reports_counterexample
          (search_zeros_results zeta findroot [a1, a2, a3, a4, a5, a6] false)) s =
      ⟨s.total_anomalies + 6, s.total_counterexamples⟩ := by
  have hline4 : ¬ |z4.re - 1 / 2| > ROOT_TOL := by rw [hz4]; decide
  have hline5 : ¬ |z5.re - 1 / 2| > ROOT_TOL := by rw [hz5]; decide
  have hline6 : ¬ |z6.re - 1 / 2| > ROOT_TOL := by rw [hz6]; decide
  have e1 := verify_zero_none_of_prefilter zeta findroot a1.1 a1.2 hr1
  have e2 := verify_zero_none_of_prefilter zeta findroot a2.1 a2.2 hr2
  have e3 := verify_zero_none_of_prefilter zeta findroot a3.1 a3.2 hr3
  have e4 := verify_zero_online zeta findroot a4.1 a4.2 z4 hp4 hf4 hc4 hline4
  have e5 := verify_zero_online zeta findroot a5.1 a5.2 z5 hp5 hf5 hc5 hline5
  have e6 := verify_zero_online zeta findroot a6.1 a6.2 z6 hp6 hf6 hc6 hline6
  have hres : search_zeros_results zeta findroot [a1, a2, a3, a4, a5, a6] false =
      [none, none, none,
       some (z4.re, z4.im, zeta ZETA_EVAL_DEFAULT_PRECISION z4, false),
       some (z5.re, z5.im, zeta ZETA_EVAL_DEFAULT_PRECISION z5, false),
       some (z6.re, z6.im, zeta ZETA_EVAL_DEFAULT_PRECISION z6, false)] := by
    simp only [search_zeros_results, List.map_cons, List.map_nil, e1, e2, e3, e4, e5, e6]
  refine ⟨hres, ?_, ?_, ?_, ?_⟩
  · rw [hres]; rfl
  · rw [hres]; rfl
  · rw [hres]; rfl
  · intro s
    rw [hres]
    simp [update_stats, cruncher_reports_counterexample]

/-- Witness for C8 (amended): the concrete scenario artifacts realise the
hypotheses, producing 3 `None`s and 3 on-critical-line results. -/
theorem search_zeros_six_anomaly_scenario_witness :
    (search_zeros_results c8_zeta c8_findroot c8_anomalies false).countP
      (fun r => r.isNone) = 3 ∧
    (search_zeros_results c8_zeta c8_findroot c8_anomalies false).countP
      (fun r => match r with | some v => !v.2.2.2 | none => false) = 3 := by
  have h := search_zeros_six_anomaly_scenario c8_zeta c8_findroot
    (3 / 5, 1) (3 / 5, 2) (3 / 5, 3) (3 / 5, 4) (3 / 5, 5) (3 / 5, 6)
    ⟨1 / 2, 4⟩ ⟨1 / 2, 5⟩ ⟨1 / 2, 6⟩
    (by decide) (by decide) (by decide)
    (by decide) (by decide) (by decide) (by decide)
    (by decide) (by decide) (by decide) (by decide)
    (by decide) (by decide) (by decide) (by decide)
  exact ⟨h.2.1, h.2.2.1⟩

/-! ## Helper lemmas about the scanner t grid -/

/-- The source t grid (`logspace` of `log10` endpoints) coincides with the
specification formula `t_min * (t_max / t_min) ^ (i / (n - 1))` for
positive endpoints. -/
lemma scan_t_eq (t_min t_max : ℝ) (h1 : 0 < t_min) (h2 : 0 < t_max)
    (n i : ℕ) :
    scan_t t_min t_max n i =
      t_min * (t_max / t_min) ^ ((i : ℝ) / ((n : ℝ) - 1)) := by
  unfold scan_t logspace linspace
  rw [mul_div_assoc, Real.rpow_add (by norm_num : (0 : ℝ) < 10),
    Real.rpow_logb (by norm_num) (by norm_num) h1]
  congr 1
  rw [Real.rpow_mul (by norm_num : (0 : ℝ) ≤ 10)]
  congr 1
  rw [Real.rpow_sub (by norm_num : (0 : ℝ) < 10),
    Real.rpow_logb (by norm_num) (by norm_num) h2,
    Real.rpow_logb (by norm_num) (by norm_num) h1]

/-- For a valid positive range, each grid value lies in `[t_min, t_max]`. -/
lemma scan_t_mem (t_min t_max : ℝ) (h1 : 0 < t_min) (hlt : t_min < t_max)
    (n i : ℕ) (hi : i < n) :
    t_min ≤ scan_t t_min t_max n i ∧ scan_t t_min t_max n i ≤ t_max := by
  have h2 : 0 < t_max := lt_trans h1 hlt
  rw [scan_t_eq t_min t_max h1 h2]
  have hr : 1 ≤ t_max / t_min := (one_le_div h1).mpr hlt.le
  rcases Nat.lt_or_ge n 2 with hn2 | hn2
  · have hn1 : n = 1 := by omega
    have hi0 : i = 0 := by omega
    subst hn1
    subst hi0
    simp only [Nat.cast_zero, zero_div, Real.rpow_zero, mul_one]
    exact ⟨le_refl _, hlt.le⟩
  · have hd : (0 : ℝ) < (n : ℝ) - 1 := by
      have h2n : (2 : ℝ) ≤ (n : ℝ) := by exact_mod_cast hn2
      linarith
    have hx0 : 0 ≤ (i : ℝ) / ((n : ℝ) - 1) :=
      div_nonneg (Nat.cast_nonneg i) hd.le
    have hx1 : (i : ℝ) / ((n : ℝ) - 1) ≤ 1 := by
      rw [div_le_one hd]
      have hin : (i : ℝ) + 1 ≤ (n : ℝ) := by exact_mod_cast hi
      linarith
    constructor
    · have hone : (1 : ℝ) ≤ (t_max / t_min) ^ ((i : ℝ) / ((n : ℝ) - 1)) := by
        have := Real.rpow_le_rpow_of_exponent_le hr hx0
        rwa [Real.rpow_zero] at this
      calc t_min = t_min * 1 := (mul_one _).symm
        _ ≤ t_min * (t_max / t_min) ^ ((i : ℝ) / ((n : ℝ) - 1)) :=
            mul_le_mul_of_nonneg_left hone h1.le
    · have hle : (t_max / t_min) ^ ((i : ℝ) / ((n : ℝ) - 1)) ≤ t_max / t_min := by
        have := Real.rpow_le_rpow_of_exponent_le hr hx1
        rwa [Real.rpow_one] at this
      calc t_min * (t_max / t_min) ^ ((i : ℝ) / ((n : ℝ) - 1))
          ≤ t_min * (t_max / t_min) := mul_le_mul_of_nonneg_left hle h1.le
        _ = t_max := by
            rw [mul_comm]
            exact div_mul_cancel₀ t_max (ne_of_gt h1)

/-- For a valid positive range, the grid is monotone non-decreasing. -/
lemma scan_t_mono (t_min t_max : ℝ) (h1 : 0 < t_min) (hlt : t_min < t_max)
    (n i j : ℕ) (hij : i ≤ j) (hj : j < n) :
    scan_t t_min t_max n i ≤ scan_t t_min t_max n j := by
  have h2 : 0 < t_max := lt_trans h1 hlt
  rw [scan_t_eq t_min t_max h1 h2, scan_t_eq t_min t_max h1 h2]
  have hr : 1 ≤ t_max / t_min := (one_le_div h1).mpr hlt.le
  apply mul_le_mul_of_nonneg_left _ h1.le
  apply Real.rpow_le_rpow_of_exponent_le hr
  rcases Nat.lt_or_ge n 2 with hn2 | hn2
  · have : i = j := by omega
    subst this
    exact le_refl _
  · have hd : (0 : ℝ) < (n : ℝ) - 1 := by
      have h2n : (2 : ℝ) ≤ (n : ℝ) := by exact_mod_cast hn2
      linarith
    exact (div_le_div_iff_of_pos_right hd).mpr (by exact_mod_cast hij)

/-! ## Claim theorems (scanner side) -/

/-- Claim C3: for a valid positive range and `count ≥ 1`, the sampler
returns exactly `count` rows; row `i` carries the σ draw and the t value
`t_min * (t_max / t_min) ^ (i / (count - 1))` (the claimed log-spaced
formula); every row's σ lies in the configured band (given numpy's
uniform-draw contract) and its t lies in `[t_min, t_max]`; and the t
values are monotone non-decreasing along the batch. -/
theorem zeta_scan_sampler_contract (sigmas : ℕ → ℝ)
    (sigma_min sigma_max t_min t_max : ℝ) (n : ℕ)
    (hn : 1 ≤ n) (ht0 : 0 < t_min) (ht : t_min < t_max)
    (hsig : ∀ i, sigma_min ≤ sigmas i ∧ sigmas i ≤ sigma_max) :
    (zeta_scan_logarithmic sigmas sigma_min sigma_max t_min t_max n).length = n ∧
    (∀ i, i < n →
      (zeta_scan_logarithmic sigmas sigma_min sigma_max t_min t_max n)[i]? =
        some (sigmas i,
          t_min * (t_max / t_min) ^ ((i : ℝ) / ((n : ℝ) - 1)),
          Complex.abs (dirichlet_sum N_DEFAULT
            ((sigmas i : ℂ) + Complex.I *
              ((t_min * (t_max / t_min) ^ ((i : ℝ) / ((n : ℝ) - 1)) : ℝ) : ℂ))))) ∧
    (∀ p ∈ zeta_scan_logarithmic sigmas sigma_min sigma_max t_min t_max n,
      sigma_min ≤ p.1 ∧ p.1 ≤ sigma_max ∧ t_min ≤ p.2.1 ∧ p.2.1 ≤ t_max) ∧
    (zeta_scan_logarithmic sigmas sigma_min sigma_max t_min t_max n).Pairwise
      (fun p q => p.2.1 ≤ q.2.1) := by
  have h2 : 0 < t_max := lt_trans ht0 ht
  refine ⟨?_, ?_, ?_, ?_⟩
  · simp [zeta_scan_logarithmic]
  · intro i hi
    unfold zeta_scan_logarithmic
    rw [List.getElem?_map, List.getElem?_range hi]
    simp [scan_t_eq t_min t_max ht0 h2]
  · intro p hp
    unfold zeta_scan_logarithmic at hp
    rcases List.mem_map.mp hp with ⟨i, hi, rfl⟩
    have hi2 := List.mem_range.mp hi
    exact ⟨(hsig i).1, (hsig i).2,
      (scan_t_mem t_min t_max ht0 ht n i hi2).1,
      (scan_t_mem t_min t_max ht0 ht n i hi2).2⟩
  · unfold zeta_scan_logarithmic
    rw [List.pairwise_map]
    refine List.Pairwise.imp_of_mem ?_ (List.pairwise_lt_range n)
    intro a b _ hb hab
    exact scan_t_mono t_min t_max ht0 ht n a b hab.le (List.mem_range.mp hb)

/-- Witness for C3: a one-point scan over `t ∈ [1, 2]` with constant σ
draw `1/2` yields exactly one sample point. -/
theorem zeta_scan_sampler_contract_witness :
    1 ≤ 1 ∧ (0 : ℝ) < 1 ∧ (1 : ℝ) < 2 ∧
    (zeta_scan_logarithmic (fun _ => (1 : ℝ) / 2)
      ((1 : ℝ) / 2) ((1 : ℝ) / 2) 1 2 1).length = 1 :=
  ⟨le_refl 1, zero_lt_one, one_lt_two,
    (zeta_scan_sampler_contract (fun _ => (1 : ℝ) / 2)
      ((1 : ℝ) / 2) ((1 : ℝ) / 2) 1 2 1 (le_refl 1) zero_lt_one one_lt_two
      (fun _ => ⟨le_refl _, le_refl _⟩)).1⟩

/-- Claim C4: on σ/t arrays of equal length the batch evaluator produces
one real magnitude per input point, and the magnitude at index `i` is
`|Σ_{n=1}^{N} n^(-(σ_i + i t_i))|`, the absolute value of the truncated
Dirichlet partial sum at that point; the default series length is 1000. -/
theorem batch_evaluator_contract (sigma_vals t_vals : List ℝ) (N : ℕ)
    (hlen : sigma_vals.length = t_vals.length) :
    (batch_magnitudes sigma_vals t_vals N).length = sigma_vals.length ∧
    (∀ (i : ℕ) (hi1 : i < sigma_vals.length) (hi2 : i < t_vals.length),
      (batch_magnitudes sigma_vals t_vals N)[i]? =
        some (Complex.abs (∑ n in Finset.Icc 1 N,
          (n : ℂ) ^ (-((sigma_vals.get ⟨i, hi1⟩ : ℂ) +
            (t_vals.get ⟨i, hi2⟩ : ℂ) * Complex.I))))) ∧
    N_DEFAULT = 1000 := by
  refine ⟨?_, ?_, rfl⟩
  · simp [batch_magnitudes, zeta_approx_gpu_batch, hlen]
  · intro i hi1 hi2
    unfold batch_magnitudes zeta_approx_gpu_batch dirichlet_sum
    rw [List.getElem?_map, List.getElem?_zipWith,
      List.getElem?_eq_getElem hi1, List.getElem?_eq_getElem hi2]
    simp only [Option.map_some', Option.some.injEq, List.get_eq_getElem]
    refine congrArg Complex.abs (Finset.sum_congr rfl ?_)
    intro n _
    rw [mul_comm Complex.I]

/-- Witness for C4: a singleton batch evaluated with one series term. -/
theorem batch_evaluator_contract_witness :
    (batch_magnitudes [(0 : ℝ)] [(0 : ℝ)] 1).length = 1 :=
  (batch_evaluator_contract [(0 : ℝ)] [(0 : ℝ)] 1 rfl).1

/-- Counterexample to C6 as stated: with σ_min = 1 > σ_max = 0 and
t_min = 2 ≥ t_max = 1 (both range configurations invalid), the scan
pipeline raises no configuration error and still returns a full batch of
3 sample rows. -/
theorem zeta_scan_no_fail_fast_cx :
    (0 : ℝ) < 1 ∧ (1 : ℝ) ≤ 2 ∧
    (zeta_scan_logarithmic (fun _ => 0) 1 0 2 1 3).length = 3 :=
  ⟨zero_lt_one, one_le_two, by simp [zeta_scan_logarithmic]⟩

/-- Claim C6 (amended): the scan pipeline performs no range validation at
all: for every configuration — valid or not (σ_min > σ_max, t_min ≥
t_max) — it completes without any configuration error and returns exactly
`num_points` rows.  (The only inputs the source rejects are non-numeric
command-line strings, refused by `argparse` before the pipeline runs.) -/
theorem zeta_scan_never_fails (sigmas : ℕ → ℝ)
    (sigma_min sigma_max t_min t_max : ℝ) (n : ℕ) :
    (zeta_scan_logarithmic sigmas sigma_min sigma_max t_min t_max n).length = n := by
  simp [zeta_scan_logarithmic]

end RiemannZeroSearch
